import Mathlib

/-!
# Verification of the BioAgentic pipeline orchestration and evidence-linking subsystem

Shallow embedding of the Python backend (`src/backend`) of the BioAgentic
repository, covering:

* the Link Validator / Aggregator (`backend/agents/linking/link_validator.py`),
* the PubMed Linker (`backend/agents/linking/pubmed_linker.py`),
* the Registry Enricher (`backend/agents/linking/registry_enricher.py`),
* the Linking Orchestrator (`backend/agents/linking/orchestrator.py`),
* the Debate loop (`backend/agents/debate.py`),
* the main pipeline state-merge model (`backend/state.py`, `backend/graph.py`,
  node functions of `backend/agents/*.py`).

Python dictionaries that are accessed with `.get(key, default)` are embedded
as Lean structures whose possibly-missing fields have type `Option _`; the
`.get` call becomes `Option.getD`.  External collaborators (the reasoning
gateway / LLM, the HTTP search tools, `json.loads` / `json.dumps` of opaque
payloads) are parameters of the embedded functions: their return values are
inputs, every concrete behaviour of the repository's own code is translated
directly from the source.
-/

/-- Substring test, mirroring Python's `needle in haystack` on strings. -/
def containsSub (s pat : String) : Bool :=
  (List.range (s.data.length + 1)).any (fun i => pat.data.isPrefixOf (s.data.drop i))

/-! ## Data model of the linking subsystem

Per-trial records are Python dicts; the fields below are exactly the keys the
embedded code reads, `Option` when the code supplies a `.get` default. -/

/-- One publication candidate (a dict produced by the LLM ranking or by the
PubMed-linker fallback); fields read by `_fallback_validation` and built by
the pubmed-linker fallback. -/
structure Candidate where
  pmid : Option String
  doi : Option String
  title : Option String
  authors : Option String
  year : Option String
  confidence : Option Int
  match_reason : Option String
  match_type : Option String
deriving Repr, DecidableEq

/-- One full-text extraction record (from `fulltext_extractor.py`); fields
read by `_fallback_validation` and the orchestrator. -/
structure FulltextRecord where
  pmid : Option String
  nct_mentioned : Bool
  fulltext_available : Bool
  availability_type : Option String
deriving Repr, DecidableEq

/-- One dataset-repository hit; fields read by `_fallback_validation`. -/
structure RepoHit where
  source : Option String
  url : Option String
  title : Option String
deriving Repr, DecidableEq

/-- One registry reference entry built by `enrich_trial` (`registry_pmids`). -/
structure RegistryRef where
  pmid : String
  citation : String
  is_result : Bool
  type : String
deriving Repr, DecidableEq

/-- The normalised registry metadata of one trial, i.e. the successful output
shape of `enrich_trial` (also consumed by `pubmed_linker.py` and
`_fallback_validation`).  The `error` field models the `"error"` key: `none`
when the key is absent. -/
structure Registry where
  nct_id : Option String
  error : Option String
  brief_title : Option String
  official_title : Option String
  conditions : List String
  interventions : List String
  sponsor : Option String
  pi_name : Option String
  start_date : Option String
  completion_date : Option String
  status : Option String
  phases : List String
  enrollment : Option String
  registry_pmids : List RegistryRef
  trial_url : Option String
deriving Repr, DecidableEq

/-- A registry record with every optional key absent (the empty dict). -/
def Registry.empty : Registry :=
  { nct_id := none, error := none, brief_title := none, official_title := none,
    conditions := [], interventions := [], sponsor := none, pi_name := none,
    start_date := none, completion_date := none, status := none, phases := [],
    enrollment := none, registry_pmids := [], trial_url := none }

/-- One per-NCT trial record assembled by the orchestrator and consumed by
`validate_links` / `_fallback_validation`. -/
structure TrialRecord where
  nct_id : Option String
  registry : Registry
  pubmed_candidates : List Candidate
  fulltext_data : List FulltextRecord
  repository_hits : List RepoHit
deriving Repr, DecidableEq

/-- A publication entry of the final `trial_links` output
(built by `_fallback_validation`). -/
structure Publication where
  pmid : String
  title : String
  authors : String
  year : String
  url : String
  confidence_tier : String
  confidence_score : Int
  match_reason : String
deriving Repr, DecidableEq

/-- A dataset entry of the final `trial_links` output. -/
structure DatasetEntry where
  source : String
  url : String
  title : String
  availability_type : String
deriving Repr, DecidableEq

/-- One entry of the final `trial_links` list. -/
structure TrialLink where
  nct_id : String
  trial_title : String
  trial_url : String
  publications : List Publication
  datasets : List DatasetEntry
  data_availability : String
deriving Repr, DecidableEq

/-- The `{"trial_links": ..., "summary": ...}` payload returned by
`validate_links`. -/
structure ValidatedResult where
  trial_links : List TrialLink
  summary : String
deriving Repr, DecidableEq

/-! ## `_fallback_validation` (link_validator.py, lines 91-159) -/

/-- Builds one publication dict from a candidate, as in the
`for c in candidates[:3]` loop of `_fallback_validation`. -/
def buildPublication (c : Candidate) : Publication :=
  let confidence := c.confidence.getD 30
  let tier : String :=
    if confidence ≥ 70 then "high" else (if confidence ≥ 50 then "medium" else "low")
  { pmid := c.pmid.getD ""
    title := c.title.getD ""
    authors := c.authors.getD ""
    year := c.year.getD ""
    url := "https://pubmed.ncbi.nlm.nih.gov/" ++ c.pmid.getD "" ++ "/"
    confidence_tier := tier
    confidence_score := confidence
    match_reason := c.match_reason.getD "PubMed search match" }

/-- The `for ft in fulltext` inner loop of `_fallback_validation`: each
full-text record whose `pmid` equals the publication's and whose
`nct_mentioned` flag is set upgrades the publication in place. -/
def upgradeStep (ft : FulltextRecord) (p : Publication) : Publication :=
  if ft.pmid = some p.pmid ∧ ft.nct_mentioned then
    { p with
      confidence_tier := "high"
      confidence_score := max p.confidence_score 80
      match_reason := p.match_reason ++ " (NCT ID confirmed in full text)" }
  else p

/-- The full upgrade loop over the trial's full-text records. -/
def upgradePublication : List FulltextRecord → Publication → Publication
  | [], p => p
  | ft :: rest, p => upgradePublication rest (upgradeStep ft p)

/-- The dataset-building loop of `_fallback_validation`. -/
def buildDataset (hit : RepoHit) : DatasetEntry :=
  { source := hit.source.getD "Unknown"
    url := hit.url.getD ""
    title := hit.title.getD ""
    availability_type := "unknown" }

/-- The data-availability summary of `_fallback_validation`
(lines 136-144): membership checks on the collected `availability_type`
values, in fixed precedence order. -/
def dataAvailLabel (fulltext : List FulltextRecord) : String :=
  let avail_types := fulltext.map (fun ft => ft.availability_type.getD "not_stated")
  if avail_types.contains "open_access" then "Open-access data available"
  else if avail_types.contains "on_request" then "Data available on request"
  else if avail_types.contains "restricted" then "Restricted access data"
  else "No data availability information found"

/-- The per-record body of the `for rec in trial_records` loop of
`_fallback_validation`. -/
def fallbackTrialLink (rec : TrialRecord) : TrialLink :=
  let nct_id := rec.nct_id.getD ""
  let registry := rec.registry
  let publications :=
    ((rec.pubmed_candidates.take 3).map buildPublication).map
      (upgradePublication rec.fulltext_data)
  { nct_id := nct_id
    trial_title := registry.brief_title.getD ""
    trial_url := registry.trial_url.getD ("https://clinicaltrials.gov/study/" ++ nct_id)
    publications := publications
    datasets := rec.repository_hits.map buildDataset
    data_availability := dataAvailLabel rec.fulltext_data }

/-- The `_fallback_validation`: builds basic validated results without the LLM. -/
def fallback_validation (trial_records : List TrialRecord) : ValidatedResult :=
  let trial_links := trial_records.map fallbackTrialLink
  let total_pubs := (trial_links.map (fun t => t.publications.length)).sum
  { trial_links := trial_links
    summary := "Found " ++ toString total_pubs ++ " publications across " ++
      toString trial_links.length ++ " trials." }

/-! ## `validate_links` (link_validator.py, lines 30-88)

The reasoning-gateway call plus the response post-processing
(`strip`, code-fence stripping, `json.loads`, the `"trial_links" in validated`
key check) is external input; its possible outcomes as seen by the remaining
code are:

* the call or `json.loads` raises (`except` branch) — `exn`;
* the response parses but the parsed value has no `"trial_links"` key — the
  code wraps it as `{"trial_links": [], "summary": str(validated)}`;
* the response parses and has a `"trial_links"` key — returned as is. -/

inductive GatewayResponse where
  /-- The `acall_llm` raised, or the response was not valid JSON. -/
  | exn : GatewayResponse
  /-- Parsed fine but `"trial_links" not in validated`; the payload is
  `str(validated)`. -/
  | parsedNoTrialLinks (rendered : String) : GatewayResponse
  /-- Parsed fine with a `"trial_links"` key. -/
  | parsedOk (v : ValidatedResult) : GatewayResponse
deriving Repr, DecidableEq

/-- The `validate_links`, instrumented: besides the returned payload, the second
component records whether the reasoning-gateway call was made. -/
def validate_links_run (trial_records : List TrialRecord) (gateway : GatewayResponse) :
    ValidatedResult × Bool :=
  if trial_records.isEmpty then
    ({ trial_links := [], summary := "No trials to validate." }, false)
  else
    match gateway with
    | .exn => (fallback_validation trial_records, true)
    | .parsedNoTrialLinks rendered => ({ trial_links := [], summary := rendered }, true)
    | .parsedOk v => (v, true)

/-- The `validate_links`: the payload returned to the caller. -/
def validate_links (trial_records : List TrialRecord) (gateway : GatewayResponse) :
    ValidatedResult :=
  (validate_links_run trial_records gateway).1

/-! ## `link_trial_to_publications` (pubmed_linker.py, lines 22-141)

`search_by_nct` and `search_by_trial_metadata` (tools/pubmed.py) are external
HTTP tools returning `(markdown, citations)`; they are parameters.  The LLM
ranking call and the JSON parse of its response are external input whose
outcomes, as distinguished by the code's post-processing
(`isinstance(parsed, list)`, the `"candidates"` key check, the final
truthiness coercion), are the constructors of `RankOutcome`. -/

/-- One raw PubMed citation dict as returned by the search tools; fields the
pubmed-linker fallback reads. -/
structure RawCitation where
  pmid : Option String
  doi : Option String
  title : Option String
  authors : Option String
  year : Option String
deriving Repr, DecidableEq

/-- Outcome of the ranking-gateway call plus JSON parsing, as the code
distinguishes them. -/
inductive RankOutcome where
  /-- The `acall_llm` raised or `json.loads` raised: the `except` branch runs. -/
  | failure : RankOutcome
  /-- Parsed to a JSON list: used as the candidate list directly. -/
  | parsedList (cs : List Candidate) : RankOutcome
  /-- Parsed to a dict with a `"candidates"` key. -/
  | parsedDict (cs : List Candidate) : RankOutcome
  /-- Parsed to some other truthy value: wrapped as a one-element list. -/
  | parsedOtherTruthy (c : Candidate) : RankOutcome
  /-- Parsed to some other falsy value: the empty candidate list. -/
  | parsedOtherFalsy : RankOutcome
deriving Repr, DecidableEq

/-- Instrumented result of one `link_trial_to_publications` run:
the returned candidate list plus what each phase produced and, when the
ranking gateway was called, the search-results section of its prompt. -/
structure LinkRun where
  result : List Candidate
  nct_md : String
  nct_citations : List RawCitation
  heuristicRan : Bool
  heuristic_md : String
  heuristic_citations : List RawCitation
  gatewayCombined : Option String
deriving Repr, DecidableEq

/-- The four-character-year scan of `pubmed_linker.py` lines 54-61:
whitespace-split the completion date and take the first all-digit token of
length 4. -/
def completionYear (completion : String) : String :=
  if completion ≠ "" then
    let parts := (completion.split (fun c => c.isWhitespace)).filter (· ≠ "")
    (parts.find? (fun p => p.data.all Char.isDigit && p.length == 4)).getD ""
  else ""

/-- The fallback candidate built from one raw citation
(pubmed_linker.py lines 128-139). -/
def fallbackCandidate (nct_id : String) (c : RawCitation) : Candidate :=
  { pmid := some (c.pmid.getD "")
    doi := some (c.doi.getD "")
    title := some (c.title.getD "")
    authors := some (c.authors.getD "")
    year := some (c.year.getD "")
    confidence := some (if containsSub (c.title.getD "").toUpper nct_id.toUpper then 40 else 25)
    match_reason := some "Raw PubMed search result (LLM ranking unavailable)"
    match_type := some "metadata_heuristic" }

/-- The `link_trial_to_publications`, instrumented as a `LinkRun`. -/
def link_trial_to_publications
    (searchByNct : String → String × List RawCitation)
    (searchByMetadata : String → String → String → String → String × List RawCitation)
    (rank : RankOutcome) (registry : Registry) : LinkRun :=
  let nct_id := registry.nct_id.getD ""
  if nct_id = "" then
    { result := [], nct_md := "", nct_citations := [], heuristicRan := false,
      heuristic_md := "", heuristic_citations := [], gatewayCombined := none }
  else
    let nctRes := searchByNct nct_id
    let nct_md := nctRes.1
    let nct_citations := nctRes.2
    let runHeuristic := nct_citations.length < 3
    let heuristicRes :=
      if runHeuristic then
        let bt := registry.brief_title.getD ""
        let title := if bt = "" then registry.official_title.getD "" else bt
        let condition := (registry.conditions.head?).getD ""
        let pi_name := registry.pi_name.getD ""
        let completion := registry.completion_date.getD ""
        searchByMetadata title condition pi_name (completionYear completion)
      else ("", [])
    let heuristic_md := heuristicRes.1
    let heuristic_citations := heuristicRes.2
    let combined := "## Structured NCT Search Results\n" ++ nct_md ++ "\n\n" ++
      (if heuristic_md ≠ "" then
        "## Heuristic Metadata Search Results\n" ++ heuristic_md ++ "\n"
      else "")
    let all_citations := nct_citations ++ heuristic_citations
    if all_citations.isEmpty then
      { result := [], nct_md := nct_md, nct_citations := nct_citations,
        heuristicRan := runHeuristic, heuristic_md := heuristic_md,
        heuristic_citations := heuristic_citations, gatewayCombined := none }
    else
      let result :=
        match rank with
        | .parsedList cs => cs
        | .parsedDict cs => cs
        | .parsedOtherTruthy c => [c]
        | .parsedOtherFalsy => []
        | .failure => (all_citations.take 5).map (fallbackCandidate nct_id)
      { result := result, nct_md := nct_md, nct_citations := nct_citations,
        heuristicRan := runHeuristic, heuristic_md := heuristic_md,
        heuristic_citations := heuristic_citations, gatewayCombined := some combined }

/-! ## `enrich_trial` (registry_enricher.py, lines 27-131)

The HTTP fetch has three outcomes as distinguished by the code: a 404
(early return with `error = "not_found"`), a `requests.RequestException`
(return with `error = str(e)`), or a parsed study JSON.  The study JSON is
embedded as nested structures whose fields mirror exactly the keys the
normaliser reads (missing keys and JSON `null` are `none`; non-dict list
entries, which the code skips, are not modelled). -/

/-- The `_safe`: `str(val).replace("\n", " ").strip()[:max_len]`, with `None`
mapped to the empty string. -/
def pySafe (val : Option String) (maxLen : Nat) : String :=
  match val with
  | none => ""
  | some s => ((s.replace "\n" " ").trim).take maxLen

structure IdentificationModule where
  briefTitle : Option String
  officialTitle : Option String
deriving Repr, DecidableEq

structure DateStruct where
  date : Option String
deriving Repr, DecidableEq

structure StatusModule where
  overallStatus : Option String
  startDateStruct : Option DateStruct
  completionDateStruct : Option DateStruct
deriving Repr, DecidableEq

structure EnrollmentInfo where
  count : Option String
deriving Repr, DecidableEq

structure DesignModule where
  phases : List String
  enrollmentInfo : Option EnrollmentInfo
deriving Repr, DecidableEq

structure LeadSponsor where
  name : Option String
deriving Repr, DecidableEq

structure SponsorModule where
  leadSponsor : Option LeadSponsor
deriving Repr, DecidableEq

structure Official where
  name : Option String
deriving Repr, DecidableEq

structure ContactsModule where
  overallOfficials : List Official
deriving Repr, DecidableEq

structure ConditionsModule where
  conditions : List String
deriving Repr, DecidableEq

structure InterventionEntry where
  name : Option String
deriving Repr, DecidableEq

structure ArmsModule where
  interventions : List InterventionEntry
deriving Repr, DecidableEq

structure ReferenceEntry where
  type : Option String
  isResultsReference : Bool
  pmid : Option String
  citation : Option String
deriving Repr, DecidableEq

structure ReferencesModule where
  references : List ReferenceEntry
deriving Repr, DecidableEq

structure ProtocolSection where
  identificationModule : Option IdentificationModule
  statusModule : Option StatusModule
  designModule : Option DesignModule
  sponsorCollaboratorsModule : Option SponsorModule
  contactsLocationsModule : Option ContactsModule
  conditionsModule : Option ConditionsModule
  armsInterventionsModule : Option ArmsModule
  referencesModule : Option ReferencesModule
deriving Repr, DecidableEq

structure Study where
  protocolSection : Option ProtocolSection
deriving Repr, DecidableEq

inductive FetchOutcome where
  | notFound : FetchOutcome
  | requestError (msg : String) : FetchOutcome
  | okStudy (study : Study) : FetchOutcome
deriving Repr, DecidableEq

def ProtocolSection.empty : ProtocolSection :=
  { identificationModule := none, statusModule := none, designModule := none,
    sponsorCollaboratorsModule := none, contactsLocationsModule := none,
    conditionsModule := none, armsInterventionsModule := none,
    referencesModule := none }

/-- The `registry_pmids` accumulation loop of `enrich_trial`
(registry_enricher.py lines 100-114). -/
def buildRegistryRefs (references : List ReferenceEntry) : List RegistryRef :=
  references.foldl
    (fun acc ref =>
      let ref_type := (pySafe ref.type 40).toUpper
      let is_result := containsSub ref_type "RESULT" || ref.isResultsReference
      let pmid := pySafe ref.pmid 32
      let citation := pySafe ref.citation 500
      if pmid ≠ "" ∨ citation ≠ "" then
        acc ++ [{ pmid := pmid, citation := citation, is_result := is_result,
                  type := pySafe ref.type 40 }]
      else acc)
    []

/-- The `enrich_trial`: fetch and normalise one trial record; total over external
failures. -/
def enrich_trial (nct_id : String) (outcome : FetchOutcome) : Registry :=
  match outcome with
  | .notFound =>
    { Registry.empty with nct_id := some nct_id, error := some "not_found" }
  | .requestError msg =>
    { Registry.empty with nct_id := some nct_id, error := some msg }
  | .okStudy study =>
    let proto := study.protocolSection.getD ProtocolSection.empty
    let ident := proto.identificationModule.getD { briefTitle := none, officialTitle := none }
    let status_mod := proto.statusModule.getD
      { overallStatus := none, startDateStruct := none, completionDateStruct := none }
    let design := proto.designModule.getD { phases := [], enrollmentInfo := none }
    let sponsor_mod := proto.sponsorCollaboratorsModule.getD { leadSponsor := none }
    let lead_sponsor := sponsor_mod.leadSponsor.getD { name := none }
    let contacts_mod := proto.contactsLocationsModule.getD { overallOfficials := [] }
    let conditions_mod := proto.conditionsModule.getD { conditions := [] }
    let arms_mod := proto.armsInterventionsModule.getD { interventions := [] }
    let refs_mod := proto.referencesModule.getD { references := [] }
    let pi_name :=
      match contacts_mod.overallOfficials.head? with
      | some pi => pySafe pi.name 300
      | none => ""
    let interventions :=
      (arms_mod.interventions.map (fun intr => pySafe intr.name 300)).filter (· ≠ "")
    { nct_id := some nct_id
      error := none
      brief_title := some (pySafe ident.briefTitle 300)
      official_title := some (pySafe ident.officialTitle 300)
      conditions := conditions_mod.conditions.take 5
      interventions := interventions.take 5
      sponsor := some (pySafe lead_sponsor.name 300)
      pi_name := some pi_name
      start_date := some (pySafe ((status_mod.startDateStruct.getD { date := none }).date) 300)
      completion_date := some (pySafe ((status_mod.completionDateStruct.getD { date := none }).date) 300)
      status := some (pySafe status_mod.overallStatus 300)
      phases := design.phases
      enrollment := some ((design.enrollmentInfo.getD { count := none }).count.getD "")
      registry_pmids := buildRegistryRefs refs_mod.references
      trial_url := some ("https://clinicaltrials.gov/study/" ++ nct_id) }

/-- The orchestrator's valid-record filter
(orchestrator.py line 108, `if not r.get("error")`). -/
def validRecords (rs : List Registry) : List Registry :=
  rs.filter (fun r => r.error.getD "" = "")

/-! ## Main pipeline data model (state.py, server.py `_build_initial_state`)

`BiotechState` is the LangGraph state TypedDict.  The server's
`_build_initial_state` populates every field, so the state fields are total
here; node code reading them with `.get(key, default)` therefore reads the
field value directly.  `search_criteria` starts as the empty dict, modelled
as `none`. -/

/-- One `agents_log` entry. -/
structure AgentLog where
  agent : String
  content : String
deriving Repr, DecidableEq

/-- A structured citation record (state.py `Citation`); all keys optional. -/
structure Citation where
  id : Option String
  type : Option String
  title : Option String
  authors : Option String
  year : Option String
  journal : Option String
  url : Option String
  pmid : Option String
  doi : Option String
  nct_id : Option String
  source_agent : Option String
deriving Repr, DecidableEq

/-- The analyzer's parsed search-criteria dict.  Only `search_queries` (the
string-valued entries the scouts look up) and `narrative_summary` are read
structurally by the embedded code; `rendered` carries the
`json.dumps(criteria, indent=2)` text used when the dict is inlined into
prompts (the dump of an opaque payload is external input carried with the
value). -/
structure SearchCriteria where
  search_queries : List (String × String)
  narrative_summary : Option String
  rendered : String
deriving Repr, DecidableEq

/-- The `api_data` nested map; keys written by the scouts. -/
structure APIData where
  trials : Option String
  pubmed : Option String
  semantic : Option String
  papers : Option String
deriving Repr, DecidableEq

/-- The debate-tracking sub-dict `{round, max_rounds, history}`. -/
structure DebateState where
  round : Nat
  max_rounds : Nat
  history : String
deriving Repr, DecidableEq

/-- The main LangGraph state (state.py `BiotechState`). -/
structure BiotechState where
  target : String
  clarification : String
  analysis : String
  search_criteria : Option SearchCriteria
  api_data : APIData
  hypotheses : String
  debate : DebateState
  brief : String
  agents_log : List AgentLog
  citations : List Citation
deriving Repr, DecidableEq

/-- A node's partial state update: exactly the keys the node's returned dict
contains are `some`. -/
structure StateUpdate where
  analysis : Option String
  search_criteria : Option (Option SearchCriteria)
  api_data : Option APIData
  hypotheses : Option String
  debate : Option DebateState
  brief : Option String
  agents_log : Option (List AgentLog)
  citations : Option (List Citation)
deriving Repr, DecidableEq

/-- The empty partial update (no keys returned). -/
def StateUpdate.none : StateUpdate :=
  { analysis := Option.none, search_criteria := Option.none, api_data := Option.none,
    hypotheses := Option.none, debate := Option.none, brief := Option.none,
    agents_log := Option.none, citations := Option.none }

/-- The LangGraph executor's merge of one node's partial update into the
state.  `BiotechState` (state.py) declares no reducer annotation
(`Annotated[..., operator.add]`) on any field, so every field is a LangGraph
`LastValue` channel: a key present in the update replaces the stored value,
an absent key leaves it unchanged. -/
def applyUpdate (s : BiotechState) (u : StateUpdate) : BiotechState :=
  { s with
    analysis := u.analysis.getD s.analysis
    search_criteria := u.search_criteria.getD s.search_criteria
    api_data := u.api_data.getD s.api_data
    hypotheses := u.hypotheses.getD s.hypotheses
    debate := u.debate.getD s.debate
    brief := u.brief.getD s.brief
    agents_log := u.agents_log.getD s.agents_log
    citations := u.citations.getD s.citations }

/-! ## Debate loop (debate.py, `Debate.call`, lines 47-121)

`acall_llm` is the reasoning gateway: a parameter `llm` taking the system
prompt and the user prompt; `BIOTECH_PROMPTS` is the external role-keyed
instruction table, a parameter `prompts`. -/

/-- One iteration of the `for r in range(current_round, max_rounds)` loop:
Advocate, then Skeptic, then Mediator, each appending a labeled block to the
transcript and one entry to the log. -/
def debateOneRound (llm : String → String → String) (prompts : String → String)
    (hypotheses : String) (max_rounds r : Nat) (history : String) (log : List AgentLog) :
    String × List AgentLog :=
  let round_label := "Round " ++ toString (r + 1) ++ "/" ++ toString max_rounds
  let adv_prompt := "Hypotheses:\n" ++ hypotheses ++ "\n\nDebate history:\n" ++ history ++
    "\n\nThis is " ++ round_label ++ "."
  let adv_response := llm (prompts "advocate") adv_prompt
  let history := history ++ "\n\n### " ++ round_label ++ " — Advocate\n" ++ adv_response
  let log := log ++ [⟨"Advocate (R" ++ toString (r + 1) ++ ")", adv_response⟩]
  let skep_prompt := "Hypotheses:\n" ++ hypotheses ++ "\n\nDebate history:\n" ++ history ++
    "\n\nThis is " ++ round_label ++ "."
  let skep_response := llm (prompts "skeptic") skep_prompt
  let history := history ++ "\n\n### " ++ round_label ++ " — Skeptic\n" ++ skep_response
  let log := log ++ [⟨"Skeptic (R" ++ toString (r + 1) ++ ")", skep_response⟩]
  let med_prompt := "Hypotheses:\n" ++ hypotheses ++ "\n\nFull debate so far:\n" ++ history
  let med_response := llm (prompts "mediator") med_prompt
  let history := history ++ "\n\n### " ++ round_label ++ " — Mediator\n" ++ med_response
  let log := log ++ [⟨"Mediator (R" ++ toString (r + 1) ++ ")", med_response⟩]
  (history, log)

/-- The debate loop, by recursion on the number of remaining rounds
(`fuel = max_rounds - r` at entry). -/
def debateLoop (llm : String → String → String) (prompts : String → String)
    (hypotheses : String) (max_rounds : Nat) :
    Nat → Nat → String → List AgentLog → String × List AgentLog
  | 0, _, history, log => (history, log)
  | fuel + 1, r, history, log =>
    let step := debateOneRound llm prompts hypotheses max_rounds r history log
    debateLoop llm prompts hypotheses max_rounds fuel (r + 1) step.1 step.2

/-- The `Debate.call`: runs the remaining rounds and returns the single combined
state update's payload — the new debate sub-dict and the `agents_log`
entries. -/
def debateCall (llm : String → String → String) (prompts : String → String)
    (debate : DebateState) (hypotheses : String) : DebateState × List AgentLog :=
  let current_round := debate.round
  let max_rounds := debate.max_rounds
  let out := debateLoop llm prompts hypotheses max_rounds
    (max_rounds - current_round) current_round debate.history []
  ({ round := max_rounds, max_rounds := max_rounds, history := out.1 }, out.2)

/-! ## Main pipeline nodes (analyzer.py, scouts.py, hypothesis.py, debate.py)

Each node is `(state) → partial update`.  External collaborators:
`llm` (`acall_llm`), `prompts` (`BIOTECH_PROMPTS`), the HTTP tools, and
`parse_criteria` (the analyzer's `_parse_response`, which wraps `json.loads`
plus a regex heuristic fallback over opaque text and always yields a
criteria dict). -/

structure MainCollab where
  llm : String → String → String
  prompts : String → String
  parse_criteria : String → String → SearchCriteria
  fetch_trials_tool : String → Option String → String × List Citation
  fetch_papers_tool : String → String × List Citation
  search_papers_tool : String → String × List Citation

/-- The `_get_query` (scouts.py lines 25-32): look a pre-built query up in
`search_criteria.search_queries`, falling back to the target when the key is
missing, not a string, or empty. -/
def getQuery (state : BiotechState) (key : String) : String :=
  let queries :=
    match state.search_criteria with
    | none => []
    | some c => c.search_queries
  match queries.lookup key with
  | some q => if q ≠ "" then q else state.target
  | none => state.target

/-- The `_criteria_context` (scouts.py lines 35-40): empty for the initial empty
criteria dict. -/
def criteriaContext (state : BiotechState) : String :=
  match state.search_criteria with
  | some c => "\n\n## Structured Search Criteria\n```json\n" ++ c.rendered ++ "\n```"
  | none => ""

/-- The `_format_citation_block` (scouts.py lines 43-60). -/
def formatCitationBlock (citations : List Citation) : String :=
  if citations.isEmpty then ""
  else
    let lines := ["\n\n## Available Citations (use these for references)"] ++
      citations.map (fun c =>
        let label := "[" ++ c.id.getD "" ++ "]"
        let parts := [c.title.getD ""] ++
          (if c.authors.getD "" ≠ "" then ["by " ++ c.authors.getD ""] else []) ++
          (if c.year.getD "" ≠ "" then ["(" ++ c.year.getD "" ++ ")"] else []) ++
          (if c.journal.getD "" ≠ "" then ["in " ++ c.journal.getD ""] else []) ++
          (if c.url.getD "" ≠ "" then ["URL: " ++ c.url.getD ""] else [])
        "- " ++ label ++ " " ++ String.intercalate " — " parts)
    String.intercalate "\n" lines

/-- The `TargetAnalyzer.call` (analyzer.py lines 35-81). -/
def target_analyzer_node (cb : MainCollab) (state : BiotechState) : StateUpdate :=
  let target := state.target
  let user_prompt := "Research target: " ++ target ++
    "\nUser clarification: " ++ state.clarification
  let raw_response := cb.llm (cb.prompts "analyzer") user_prompt
  let search_criteria := cb.parse_criteria raw_response target
  let narrative := search_criteria.narrative_summary.getD
    ("Parsed research target: " ++ target)
  { StateUpdate.none with
    analysis := some narrative
    search_criteria := some (some search_criteria)
    agents_log := some [⟨"Target Analyzer",
      narrative ++ "\n\n**Structured criteria:** " ++ search_criteria.rendered⟩] }

/-- The `TrialsScout.call` (scouts.py lines 71-119). -/
def trials_scout_node (cb : MainCollab) (state : BiotechState) : StateUpdate :=
  let condition_query := getQuery state "clinicaltrials_condition"
  let intervention_query := getQuery state "clinicaltrials_intervention"
  let intervention :=
    if intervention_query ≠ state.target then some intervention_query else none
  let fetched := cb.fetch_trials_tool condition_query intervention
  let raw_trials := fetched.1
  let trial_citations := fetched.2
  let criteria_block := criteriaContext state
  let citation_block := formatCitationBlock trial_citations
  let analysis := cb.llm (cb.prompts "trials_scout")
    ("Target: " ++ state.target ++ "\n\nClinical trial data:\n" ++ raw_trials ++
      criteria_block ++ citation_block)
  { StateUpdate.none with
    api_data := some { state.api_data with trials := some raw_trials }
    agents_log := some [⟨"Trials Scout", analysis⟩]
    citations := some (state.citations ++ trial_citations) }

/-- The `LitScout.call` (scouts.py lines 130-184). -/
def literature_miner_node (cb : MainCollab) (state : BiotechState) : StateUpdate :=
  let pubmed_query := getQuery state "pubmed_query"
  let semantic_query := getQuery state "semantic_scholar_query"
  let pm := cb.fetch_papers_tool pubmed_query
  let ss := cb.search_papers_tool semantic_query
  let pubmed_data := pm.1
  let semantic_data := ss.1
  let combined := "## PubMed Results\n" ++ pubmed_data ++
    "\n\n## Semantic Scholar Results\n" ++ semantic_data
  let all_new_citations := pm.2 ++ ss.2
  let criteria_block := criteriaContext state
  let citation_block := formatCitationBlock all_new_citations
  let analysis := cb.llm (cb.prompts "literature_miner")
    ("Target: " ++ state.target ++ "\n\nAcademic literature data:\n" ++ combined ++
      criteria_block ++ citation_block)
  { StateUpdate.none with
    api_data := some { state.api_data with
      pubmed := some pubmed_data, semantic := some semantic_data,
      papers := some combined }
    agents_log := some [⟨"Literature Miner", analysis⟩]
    citations := some (state.citations ++ all_new_citations) }

/-- The `HypothesisGenerator.call` (hypothesis.py lines 21-61): note that the
"previous insights" context is built from the *current* `agents_log` state
field. -/
def hypothesis_generator_node (cb : MainCollab) (state : BiotechState) : StateUpdate :=
  let previous_insights := String.intercalate "\n\n"
    (state.agents_log.map (fun entry => "### " ++ entry.agent ++ "\n" ++ entry.content))
  let context := "Target: " ++ state.target ++
    "\n\n## Target Analysis\n" ++ state.analysis ++
    "\n\n## Agent Insights\n" ++ previous_insights ++
    "\n\n## Raw Trial Data (summary)\n" ++ (state.api_data.trials.getD "N/A").take 500 ++
    "\n\n## Raw Literature Data (summary)\n" ++
      (match state.api_data.papers with
       | some p => p
       | none => state.api_data.pubmed.getD "N/A").take 500
  let hypotheses := cb.llm (cb.prompts "hypothesis_generator") context
  { StateUpdate.none with
    hypotheses := some hypotheses
    agents_log := some [⟨"Hypothesis Generator", hypotheses⟩] }

/-- The `Debate.call` as a pipeline node (debate.py lines 114-121): the round
results are written back as one combined update. -/
def debate_node (cb : MainCollab) (state : BiotechState) : StateUpdate :=
  let out := debateCall cb.llm cb.prompts state.debate state.hypotheses
  { StateUpdate.none with
    debate := some out.1
    agents_log := some out.2 }

/-- The `_format_citation_registry` (debate.py lines 17-41). -/
def formatCitationRegistry (citations : List Citation) : String :=
  if citations.isEmpty then "\n\n## Citation Registry\nNo structured citations available."
  else
    let header := ["\n\n## Citation Registry",
      "Use ONLY these citations for the References section. Each citation has a verified URL.",
      "Do NOT include internal IDs (like ct-1, pm-2, ss-3) in the final report — use numbered references [1], [2], etc.",
      ""]
    let body := citations.enum.flatMap (fun ic =>
      let idx := ic.1 + 1
      let c := ic.2
      let parts :=
        (if c.authors.getD "" ≠ "" then [c.authors.getD ""] else []) ++
        (if c.title.getD "" ≠ "" then ["\"" ++ c.title.getD "" ++ "\""] else []) ++
        (if c.journal.getD "" ≠ "" then [c.journal.getD ""] else []) ++
        (if c.year.getD "" ≠ "" then ["(" ++ c.year.getD "" ++ ")"] else []) ++
        (if c.nct_id.getD "" ≠ "" then ["NCT: " ++ c.nct_id.getD ""] else [])
      let url := c.url.getD ""
      ["- " ++ toString idx ++ ". " ++ String.intercalate " — " parts] ++
        (if url ≠ "" then ["  URL: " ++ url] else []))
    String.intercalate "\n" (header ++ body)

/-- The `Synthesizer.call` (debate.py lines 129-172).  The `trial_publications`
key of `api_data` is never written by any node of this graph, so its
`json.dumps` is the constant `"[]"`. -/
def synthesizer_node (cb : MainCollab) (state : BiotechState) : StateUpdate :=
  let citation_registry := formatCitationRegistry state.citations
  let trial_publications_json := "[]"
  let full_context := "# Research Target: " ++ state.target ++
    "\n\n## Target Analysis\n" ++ state.analysis ++
    "\n\n## Clinical Trial Data\n" ++ state.api_data.trials.getD "N/A" ++
    "\n\n## Verified Trial-Publication Links (ClinicalTrials.gov Results References)\n" ++
    "```json\n" ++ trial_publications_json ++ "\n```" ++
    "\n\n## PubMed Literature\n" ++ (state.api_data.pubmed.getD "N/A").take 800 ++
    "\n\n## Semantic Scholar Literature\n" ++ (state.api_data.semantic.getD "N/A").take 800 ++
    "\n\n## Generated Hypotheses\n" ++ state.hypotheses ++
    "\n\n## Debate Transcript\n" ++ state.debate.history ++
    citation_registry
  let brief := cb.llm (cb.prompts "synthesizer") full_context
  { StateUpdate.none with
    brief := some brief
    agents_log := some [⟨"Synthesizer", brief⟩] }

/-- The fixed node order of the compiled graph (graph.py lines 43-49). -/
def pipelineNodes (cb : MainCollab) : List (BiotechState → StateUpdate) :=
  [target_analyzer_node cb, trials_scout_node cb, literature_miner_node cb,
   hypothesis_generator_node cb, debate_node cb, synthesizer_node cb]

/-- The executor: thread the state through a step sequence, merging each
step's partial update (LangGraph `Pregel` sequential execution over the
linear graph). -/
def runSteps (s : BiotechState) (nodes : List (BiotechState → StateUpdate)) : BiotechState :=
  nodes.foldl (fun st node => applyUpdate st (node st)) s

/-- The `_build_initial_state` (server.py lines 137-154). -/
def build_initial_state (target : String) (rounds : Nat) (clarification : String) :
    BiotechState :=
  { target := target
    clarification := clarification
    analysis := ""
    search_criteria := none
    api_data := { trials := none, pubmed := none, semantic := none, papers := none }
    hypotheses := ""
    debate := { round := 0, max_rounds := rounds, history := "" }
    brief := ""
    agents_log := []
    citations := [] }

/-! ## `format_linking_markdown` (link_validator.py, lines 162-245)

In the typed model every key of a trial link is present, so the Python
`.get(key, default)` defaults for absent keys ("N/A", "Untitled", "Dataset",
"low", 0) are not exercised and the field value is read directly. -/

def format_linking_markdown (validated : ValidatedResult) : String :=
  let trial_links := validated.trial_links
  let summary := validated.summary
  if trial_links.isEmpty then
    "### Clinical Trial Publication Links\n\nNo trial-publication links were found.\n"
  else
    let total_pubs := (trial_links.map (fun t => t.publications.length)).sum
    let total_datasets := (trial_links.map (fun t => t.datasets.length)).sum
    let high_conf := (trial_links.map
      (fun t => (t.publications.filter (fun p => p.confidence_tier = "high")).length)).sum
    let header := "### Clinical Trial Publication Links\n\n" ++ summary ++ "\n\n" ++
      "**" ++ toString trial_links.length ++ " trials analysed** · " ++
      "**" ++ toString total_pubs ++ " publications found** · " ++
      "**" ++ toString high_conf ++ " high-confidence matches** · " ++
      "**" ++ toString total_datasets ++ " datasets identified**\n\n" ++
      "| NCT ID | Clinical Trial | Publication | Confidence | Data |\n" ++
      "|--------|---------------|-------------|------------|------|\n"
    let rows := String.join (trial_links.map (fun trial =>
      let nct_id := trial.nct_id
      let title := trial.trial_title
      let trial_url := trial.trial_url
      let nct_cell :=
        if trial_url ≠ "" then "[" ++ nct_id ++ "](" ++ trial_url ++ ")" else nct_id
      let pubs := trial.publications
      let data_avail := trial.data_availability
      if ¬ pubs.isEmpty then
        String.join (pubs.map (fun pub =>
          let pub_title := pub.title.take 80
          let pub_cell :=
            if pub.url ≠ "" ∧ pub_title ≠ "" then
              "[" ++ pub_title ++ "](" ++ pub.url ++ ")"
            else if pub.pmid ≠ "" then "PMID: " ++ pub.pmid
            else (if pub_title ≠ "" then pub_title else "Unknown")
          let tier := pub.confidence_tier
          let conf_emoji :=
            if tier = "high" then "🟢" else (if tier = "medium" then "🟡" else "🔴")
          let conf_cell := conf_emoji ++ " " ++ tier.capitalize ++
            " (" ++ toString pub.confidence_score ++ "%)"
          "| " ++ nct_cell ++ " | " ++ title.take 60 ++ " | " ++ pub_cell ++ " | " ++
            conf_cell ++ " | " ++ data_avail ++ " |\n"))
      else
        "| " ++ nct_cell ++ " | " ++ title.take 60 ++ " | No publications found | — | " ++
          data_avail ++ " |\n"))
    let all_datasets := trial_links.flatMap (fun t => t.datasets.map (fun d => (t.nct_id, d)))
    let ds_section :=
      if ¬ all_datasets.isEmpty then
        "\n### Associated Datasets\n\n" ++
        "| NCT ID | Dataset | Source | Access |\n" ++
        "|--------|---------|--------|--------|\n" ++
        String.join (all_datasets.map (fun nd =>
          let ds := nd.2
          let ds_title := ds.title.take 80
          let ds_cell :=
            if ds.url ≠ "" then "[" ++ ds_title ++ "](" ++ ds.url ++ ")" else ds_title
          "| " ++ nd.1 ++ " | " ++ ds_cell ++ " | " ++ ds.source ++ " | " ++
            ds.availability_type ++ " |\n"))
      else ""
    header ++ rows ++ ds_section

/-! ## `run_linking_pipeline` (orchestrator.py, lines 30-228)

The yielded SSE events are collected into a list; `enrich_calls` additionally
records which NCT ids were handed to the Registry Enricher stage, so that
"Enrichment never ran" is directly observable.  External collaborators
(`fetch_trials`, the per-id HTTP outcome behind `enrich_trial`, the PubMed
search tools, the ranking and validation gateway outcomes, repository search,
`extract_batch`) are the fields of `LinkingCollab`. -/

/-- One trial dict from `fetch_trials`; the orchestrator only reads
`nct_id`. -/
structure CTTrial where
  nct_id : Option String
deriving Repr, DecidableEq

/-- One yielded SSE event; absent keys are `""` / `none`. -/
structure Event where
  event : String
  agent : String
  content : String
  detail : String
  data : Option ValidatedResult
deriving Repr, DecidableEq

def Event.status (agent content : String) : Event :=
  ⟨"status", agent, content, "", none⟩

def Event.agentMsg (agent content : String) : Event :=
  ⟨"agent", agent, content, "", none⟩

def Event.done : Event :=
  ⟨"done", "", "", "", none⟩

structure LinkingCollab where
  fetch_trials : String → Nat → Except String (String × List CTTrial)
  enrichOutcome : String → FetchOutcome
  searchByNct : String → String × List RawCitation
  searchByMetadata : String → String → String → String → String × List RawCitation
  rank : Registry → RankOutcome
  searchRepos : String → String → List RepoHit
  extractBatch : List Candidate → String → List FulltextRecord
  gateway : GatewayResponse

/-- Result of one orchestrator run: the yielded events, and the NCT ids
fanned out to the Registry Enricher (empty when Enrichment never ran). -/
structure PipelineRun where
  events : List Event
  enrich_calls : List String
deriving Repr

/-- Steps 2-5 of the orchestrator (common to both ways of obtaining the NCT
ids): Registry Enrichment, PubMed linking + repository search, full-text
extraction, validation/aggregation, final result. -/
def linkingStages (cb : LinkingCollab) (nct_ids : List String) (pre : List Event) :
    PipelineRun :=
  let st2 := Event.status "Registry Enricher"
    ("Enriching " ++ toString nct_ids.length ++ " trial records from ClinicalTrials.gov…")
  let enriched_records := nct_ids.map (fun nct => enrich_trial nct (cb.enrichOutcome nct))
  let valid_records := validRecords enriched_records
  let refsCount := (valid_records.map (fun r => r.registry_pmids.length)).sum
  let ag2 := Event.agentMsg "Registry Enricher"
    ("Enriched " ++ toString valid_records.length ++ "/" ++ toString nct_ids.length ++
      " trial records. Extracted metadata including titles, conditions, PIs, dates, and " ++
      toString refsCount ++ " registry-linked references.")
  let st3 := Event.status "PubMed Linker" "Searching PubMed for linked publications…"
  let trial_records : List TrialRecord := valid_records.map (fun registry =>
    let nct_id := registry.nct_id.getD ""
    let pubmed_candidates := (link_trial_to_publications cb.searchByNct
      cb.searchByMetadata (cb.rank registry) registry).result
    let repo_hits := cb.searchRepos nct_id (registry.brief_title.getD "")
    { nct_id := some nct_id, registry := registry,
      pubmed_candidates := pubmed_candidates,
      fulltext_data := [], repository_hits := repo_hits })
  let total_pubs := (trial_records.map (fun r => r.pubmed_candidates.length)).sum
  let total_repos := (trial_records.map (fun r => r.repository_hits.length)).sum
  let ag3 := Event.agentMsg "PubMed Linker"
    ("Found " ++ toString total_pubs ++ " candidate publications across " ++
      toString trial_records.length ++ " trials. Repository search found " ++
      toString total_repos ++ " dataset records.")
  let ftStage :=
    if total_pubs > 0 then
      let st4 := Event.status "Full-Text Extractor"
        "Fetching full texts and extracting data availability…"
      let recs2 := trial_records.map (fun rec =>
        if ¬ rec.pubmed_candidates.isEmpty then
          { rec with fulltext_data :=
              cb.extractBatch (rec.pubmed_candidates.take 3) (rec.nct_id.getD "") }
        else rec)
      let nct_mentions := (recs2.map
        (fun r => (r.fulltext_data.filter (fun ft => ft.nct_mentioned)).length)).sum
      let data_sections := (recs2.map
        (fun r => (r.fulltext_data.filter (fun ft => ft.fulltext_available)).length)).sum
      let ag4 := Event.agentMsg "Full-Text Extractor"
        ("Analysed " ++ toString data_sections ++ " publication full texts. Found " ++
          toString nct_mentions ++ " publications mentioning trial NCT IDs in text.")
      ([st4, ag4], recs2)
    else ([], trial_records)
  let st5 := Event.status "Link Validator"
    "Validating and aggregating trial–publication links…"
  let validated := validate_links ftStage.2 cb.gateway
  let final_markdown := format_linking_markdown validated
  let ag5 := Event.agentMsg "Link Validator" ("Validation complete. " ++ validated.summary)
  let resEv : Event := ⟨"result", "", final_markdown, "", some validated⟩
  { events := pre ++ [st2, ag2, st3, ag3] ++ ftStage.1 ++ [st5, ag5, resEv, Event.done],
    enrich_calls := nct_ids }

/-- The `run_linking_pipeline`.  `nct_ids0 = none` or `some []` is the falsy
`if nct_ids:` branch (search ClinicalTrials.gov by target). -/
def run_linking_pipeline (cb : LinkingCollab) (target : String)
    (nct_ids0 : Option (List String)) (max_trials : Nat) : PipelineRun :=
  let provided :=
    match nct_ids0 with
    | some l => if l.isEmpty then none else some l
    | none => none
  match provided with
  | some l =>
    let ids := (l.filter (· ≠ "")).take max_trials
    let ev1 := Event.status "Linking Orchestrator"
      ("Using " ++ toString ids.length ++ " trials from research results…")
    let ev2 := Event.agentMsg "Linking Orchestrator"
      ("Starting deep linking analysis for " ++ toString ids.length ++ " trials: " ++
        String.intercalate ", " (ids.take 5) ++ (if ids.length > 5 then "…" else ""))
    linkingStages cb ids [ev1, ev2]
  | none =>
    let ev1 := Event.status "Linking Orchestrator"
      ("Searching ClinicalTrials.gov for '" ++ target ++ "'…")
    match cb.fetch_trials target max_trials with
    | .error e =>
      { events := [ev1, ⟨"error", "", "", "Failed to fetch trials: " ++ e, none⟩],
        enrich_calls := [] }
    | .ok fetched =>
      let trial_list := fetched.2
      if trial_list.isEmpty then
        { events := [ev1,
            Event.agentMsg "Linking Orchestrator"
              ("No clinical trials found for '" ++ target ++ "'."),
            Event.done],
          enrich_calls := [] }
      else
        let ids := ((trial_list.map (fun t => t.nct_id.getD "")).filter (· ≠ "")).take max_trials
        let ev2 := Event.agentMsg "Linking Orchestrator"
          ("Found " ++ toString ids.length ++ " trials. Beginning deep linking analysis…")
        linkingStages cb ids [ev1, ev2]

/-! ## Spec-side definitions

These restate the specification's vocabulary independently of the embedded
code, for use in the claim statements. -/

/-- Spec-side confidence tier: score ≥ 70 is high, 50-69 medium, below 50
low. -/
def tierSpec (score : Int) : String :=
  if 70 ≤ score then "high" else (if 50 ≤ score then "medium" else "low")

/-- A full-text record "flags the trial id as mentioned for this pmid":
same `pmid` and `nct_mentioned` set. -/
def ftMatches (pmid : String) (ft : FulltextRecord) : Prop :=
  ft.pmid = some pmid ∧ ft.nct_mentioned = true

instance (pmid : String) (ft : FulltextRecord) : Decidable (ftMatches pmid ft) := by
  unfold ftMatches; infer_instance

/-- Spec-side data-availability precedence over a trial's availability
classifications: open_access, then on_request, then restricted, then the
no-information label. -/
def availPrecedenceSpec (types : List String) : String :=
  if "open_access" ∈ types then "Open-access data available"
  else if "on_request" ∈ types then "Data available on request"
  else if "restricted" ∈ types then "Restricted access data"
  else "No data availability information found"

/-- Concatenation of a block list into a transcript. -/
def strConcat (l : List String) : String :=
  l.foldr (fun a b => a ++ b) ""

/-- Spec-side labeled transcript block: "Round k/N — Role" header followed
by the block's content, as appended by the debate loop. -/
def debateBlockSpec (maxR r : Nat) (role content : String) : String :=
  "\n\n### Round " ++ toString (r + 1) ++ "/" ++ toString maxR ++ " — " ++ role ++
    "\n" ++ content

/-- The strict role rotation of one debate round. -/
def debateRoles : List String := ["Advocate", "Skeptic", "Mediator"]

/-- Spec-side `agents_log` entry for one debate block. -/
def debateLogSpec (r : Nat) (role content : String) : AgentLog :=
  ⟨role ++ " (R" ++ toString (r + 1) ++ ")", content⟩

/-! ## Concrete sample inputs for witnesses and counterexamples -/

/-- A candidate with confidence 20 whose trial mention will be confirmed in
full text. -/
def c4cand : Candidate :=
  { pmid := some "31000000", doi := none, title := some "A trial report",
    authors := some "Smith J", year := some "2021", confidence := some 20,
    match_reason := none, match_type := none }

/-- A full-text record flagging the trial id as mentioned for the same
pmid. -/
def c4ft : FulltextRecord :=
  { pmid := some "31000000", nct_mentioned := true, fulltext_available := true,
    availability_type := some "not_stated" }

/-- Trial record for the force-upgrade witness. -/
def c4rec : TrialRecord :=
  { nct_id := some "NCT01234567", registry := Registry.empty,
    pubmed_candidates := [c4cand], fulltext_data := [c4ft], repository_hits := [] }

/-- A trial record with no publications and no full-text data. -/
def c5rec : TrialRecord :=
  { nct_id := some "NCT07654321", registry := Registry.empty,
    pubmed_candidates := [], fulltext_data := [], repository_hits := [] }

/-- A trial record used for the validator error-handling claim. -/
def c2rec : TrialRecord :=
  { nct_id := some "NCT02222222", registry := Registry.empty,
    pubmed_candidates := [], fulltext_data := [], repository_hits := [] }

/-- Orchestrator collaborators whose registry search returns zero trials. -/
def c6cb : LinkingCollab :=
  { fetch_trials := fun _ _ => Except.ok ("", [])
    enrichOutcome := fun _ => FetchOutcome.notFound
    searchByNct := fun _ => ("", [])
    searchByMetadata := fun _ _ _ _ => ("", [])
    rank := fun _ => RankOutcome.failure
    searchRepos := fun _ _ => []
    extractBatch := fun _ _ => []
    gateway := GatewayResponse.exn }

/-- A registry record carrying only an NCT id. -/
def c7registry : Registry :=
  { Registry.empty with nct_id := some "NCT01234567" }

/-- NCT search that finds no citations. -/
def c7searchNctEmpty : String → String × List RawCitation :=
  fun _ => ("No publications found.", [])

/-- Metadata search that finds no citations. -/
def c7searchMetaEmpty : String → String → String → String → String × List RawCitation :=
  fun _ _ _ _ => ("", [])

/-- One raw PubMed citation. -/
def rawCit1 : RawCitation :=
  { pmid := some "30000001", doi := some "10.1000/xyz", title := some "Phase 2 results",
    authors := some "Doe A", year := some "2020" }

/-- A second raw PubMed citation. -/
def rawCit2 : RawCitation :=
  { pmid := some "30000002", doi := none, title := some "Long-term follow-up",
    authors := some "Roe B", year := some "2022" }

/-- NCT search returning one citation (fewer than 3, so the heuristic phase
escalates). -/
def c7searchNctOne : String → String × List RawCitation :=
  fun _ => ("A", [rawCit1])

/-- Metadata search returning one citation. -/
def c7searchMetaOne : String → String → String → String → String × List RawCitation :=
  fun _ _ _ _ => ("B", [rawCit2])

/-- A structured citation discovered by the trials scout. -/
def ct1cit : Citation :=
  { id := some "ct-1", type := some "clinical_trial", title := some "Trial one",
    authors := none, year := none, journal := none, url := none, pmid := none,
    doi := none, nct_id := some "NCT01234567", source_agent := some "trials_scout" }

/-- Main-pipeline collaborators with fixed outputs, for executing the first
two steps concretely. -/
def c1collab : MainCollab :=
  { llm := fun _ _ => "LLM-OUTPUT"
    prompts := fun key => key
    parse_criteria := fun _ target =>
      { search_queries := [("clinicaltrials_condition", target)]
        narrative_summary := some "criteria parsed"
        rendered := "rendered-criteria" }
    fetch_trials_tool := fun _ _ => ("trial data", [ct1cit])
    fetch_papers_tool := fun _ => ("pubmed data", [])
    search_papers_tool := fun _ => ("semantic data", []) }

/-- The three labeled blocks of round `k` in strict
Advocate → Skeptic → Mediator order, with contents `c k 0`, `c k 1`,
`c k 2`. -/
def debateRoundBlocksSpec (maxR k : Nat) (c : Nat → Nat → String) : List String :=
  [debateBlockSpec maxR k "Advocate" (c k 0),
   debateBlockSpec maxR k "Skeptic" (c k 1),
   debateBlockSpec maxR k "Mediator" (c k 2)]

/-- The three `agents_log` entries of round `k`, one per block, in the same
order. -/
def debateRoundLogSpec (k : Nat) (c : Nat → Nat → String) : List AgentLog :=
  [debateLogSpec k "Advocate" (c k 0),
   debateLogSpec k "Skeptic" (c k 1),
   debateLogSpec k "Mediator" (c k 2)]

/-- The Advocate response of round `r` (the oracle applied to the advocate
prompt the code builds from the transcript-so-far). -/
def debAdvResp (llm : String → String → String) (prompts : String → String)
    (hypotheses : String) (maxR r : Nat) (history : String) : String :=
  llm (prompts "advocate")
    ("Hypotheses:\n" ++ hypotheses ++ "\n\nDebate history:\n" ++ history ++
      "\n\nThis is " ++ ("Round " ++ toString (r + 1) ++ "/" ++ toString maxR) ++ ".")

/-- The transcript after the Advocate block of round `r`. -/
def debHist1 (llm : String → String → String) (prompts : String → String)
    (hypotheses : String) (maxR r : Nat) (history : String) : String :=
  history ++ "\n\n### " ++ ("Round " ++ toString (r + 1) ++ "/" ++ toString maxR) ++
    " — Advocate\n" ++ debAdvResp llm prompts hypotheses maxR r history

/-- The Skeptic response of round `r`. -/
def debSkepResp (llm : String → String → String) (prompts : String → String)
    (hypotheses : String) (maxR r : Nat) (history : String) : String :=
  llm (prompts "skeptic")
    ("Hypotheses:\n" ++ hypotheses ++ "\n\nDebate history:\n" ++
      debHist1 llm prompts hypotheses maxR r history ++
      "\n\nThis is " ++ ("Round " ++ toString (r + 1) ++ "/" ++ toString maxR) ++ ".")

/-- The transcript after the Skeptic block of round `r`. -/
def debHist2 (llm : String → String → String) (prompts : String → String)
    (hypotheses : String) (maxR r : Nat) (history : String) : String :=
  debHist1 llm prompts hypotheses maxR r history ++ "\n\n### " ++
    ("Round " ++ toString (r + 1) ++ "/" ++ toString maxR) ++ " — Skeptic\n" ++
    debSkepResp llm prompts hypotheses maxR r history

/-- The Mediator response of round `r`. -/
def debMedResp (llm : String → String → String) (prompts : String → String)
    (hypotheses : String) (maxR r : Nat) (history : String) : String :=
  llm (prompts "mediator")
    ("Hypotheses:\n" ++ hypotheses ++ "\n\nFull debate so far:\n" ++
      debHist2 llm prompts hypotheses maxR r history)

/-! ## Theorems -/

theorem strAppendEmpty (s : String) : s ++ "" = s := String.append_empty s

theorem strAppendAssoc (a b c : String) : a ++ b ++ c = a ++ (b ++ c) :=
  String.append_assoc a b c

theorem strConcat_cons (a : String) (l : List String) :
    strConcat (a :: l) = a ++ strConcat l := rfl

/-- The code's availability label agrees with the spec-side precedence over
the collected classification values. -/
theorem dataAvail_eq_spec (fulltext : List FulltextRecord) :
    dataAvailLabel fulltext =
      availPrecedenceSpec (fulltext.map (fun ft => ft.availability_type.getD "not_stated")) := by
  simp [dataAvailLabel, availPrecedenceSpec, List.contains, List.elem_eq_mem]

/-- C10: calling `validate_links` with an empty list of trial records returns
the fixed payload with empty `trial_links` and the summary
"No trials to validate." immediately, and the reasoning gateway is not
called (the instrumented flag is `false`) whatever the gateway outcome would
have been. -/
theorem C10_empty_input (g : GatewayResponse) :
    validate_links [] g = { trial_links := [], summary := "No trials to validate." } ∧
    (validate_links_run [] g).2 = false :=
  ⟨rfl, rfl⟩

/-- C2 counterexample: a gateway response that parses as JSON but lacks the
required `"trial_links"` key does NOT go through the deterministic fallback:
with one input trial record the returned `trial_links` is empty, so the
"one trial-link entry per input trial record" contract is violated. -/
theorem C2_counterexample :
    (validate_links [c2rec] (GatewayResponse.parsedNoTrialLinks "raw")).trial_links.length ≠
      [c2rec].length := by decide

/-- C2 (amended): for every nonempty list of trial records, when the gateway
call raises or its response is invalid JSON, `validate_links` returns the
deterministic fallback result, which has one trial-link entry per input
trial record, and the failure is not surfaced as an error (a normal payload
is returned).  A response that parses but lacks the `"trial_links"` key is
instead coerced to `{"trial_links": [], "summary": str(parsed)}` without the
fallback. -/
theorem C2_exn_fallback (records : List TrialRecord) (h : records ≠ []) :
    validate_links records GatewayResponse.exn = fallback_validation records ∧
    (validate_links records GatewayResponse.exn).trial_links.length = records.length ∧
    ∀ rendered, validate_links records (GatewayResponse.parsedNoTrialLinks rendered) =
      { trial_links := [], summary := rendered } := by
  have hne : records.isEmpty = false := by
    cases records with
    | nil => exact absurd rfl h
    | cons a l => rfl
  refine ⟨?_, ?_, fun rendered => ?_⟩ <;>
    simp [validate_links, validate_links_run, hne, fallback_validation]

theorem C2_exn_fallback_witness :
    [c2rec] ≠ [] ∧
    (validate_links [c2rec] GatewayResponse.exn).trial_links.length = [c2rec].length :=
  ⟨by decide, (C2_exn_fallback [c2rec] (by decide)).2.1⟩

/-- C5 counterexample: for a trial record with no publications (and hence no
full-text data), the fallback's `data_availability` label is the string
"No data availability information found", not the literal
"no information found" the claim states. -/
theorem C5_counterexample :
    (validate_links [c5rec] GatewayResponse.exn).trial_links.map
      (fun t => t.data_availability) = ["No data availability information found"] ∧
    ¬ ((validate_links [c5rec] GatewayResponse.exn).trial_links.map
      (fun t => t.data_availability) = ["no information found"]) := by
  constructor
  · decide
  · decide

/-- C5 (amended): in the validator's deterministic fallback, exactly one
trial-link entry is emitted per trial record (the `Forall₂` pairing), its
`data_availability` label is derived from that trial's full-text availability
classifications by the fixed precedence open_access > on_request >
restricted > no-information, where the emitted labels are the code's strings
("Open-access data available", "Data available on request",
"Restricted access data", "No data availability information found"); for a
trial record with no publications the entry has empty publications, and with
no full-text data its label is "No data availability information found". -/
theorem C5_fallback_availability (records : List TrialRecord) :
    List.Forall₂ (fun rec link =>
      link.data_availability =
        availPrecedenceSpec (rec.fulltext_data.map (fun ft => ft.availability_type.getD "not_stated")) ∧
      link.nct_id = rec.nct_id.getD "" ∧
      (rec.pubmed_candidates = [] → link.publications = []) ∧
      (rec.fulltext_data = [] →
        link.data_availability = "No data availability information found"))
      records (fallback_validation records).trial_links := by
  have heq : (fallback_validation records).trial_links = records.map fallbackTrialLink := rfl
  rw [heq, List.forall₂_map_right_iff]
  refine List.forall₂_same.mpr (fun rec _ => ?_)
  refine ⟨dataAvail_eq_spec rec.fulltext_data, rfl, ?_, ?_⟩
  · intro hempty
    simp [fallbackTrialLink, hempty]
  · intro hempty
    simp [fallbackTrialLink, dataAvailLabel, hempty]

theorem C5_fallback_availability_witness :
    (fallback_validation [c5rec]).trial_links.map
      (fun l => (l.publications, l.data_availability)) =
      [([], "No data availability information found")] := by
  have h := C5_fallback_availability [c5rec]
  rcases h with _ | ⟨⟨h1, h2, h3, h4⟩, h5⟩
  simp only [List.map]
  refine congrArg (fun x => [x]) ?_
  exact Prod.ext (by simpa using h3 rfl) (by simpa using h4 rfl)

/-- C9 counterexample: a `requests.RequestException` whose string rendering
is empty yields `{"nct_id": ..., "error": ""}` — the `error` field is present
but empty, not non-empty as the claim states, and the orchestrator's
`if not r.get("error")` filter then KEEPS the errored record in the valid
set instead of dropping it. -/
theorem C9_counterexample :
    (enrich_trial "NCT00000000" (FetchOutcome.requestError "")).error = some "" ∧
    validRecords [enrich_trial "NCT00000000" (FetchOutcome.requestError "")] =
      [enrich_trial "NCT00000000" (FetchOutcome.requestError "")] := by
  constructor
  · rfl
  · decide

/-- C9 (amended): `enrich_trial` is total over external failures: every
outcome yields a record carrying the input NCT id; a not-found response
yields `error = "not_found"` (non-empty); a request exception yields
`error = str(e)` — non-empty only when the exception's message is; a
successful enrichment has no `error` key; and the orchestrator's filter
keeps a record exactly when its `error` value is absent or empty (so an
empty-message exception record is not dropped). -/
theorem C9_total_enrichment (id msg : String) (study : Study) :
    (∀ o, (enrich_trial id o).nct_id = some id) ∧
    (enrich_trial id FetchOutcome.notFound).error = some "not_found" ∧
    (enrich_trial id (FetchOutcome.requestError msg)).error = some msg ∧
    (enrich_trial id (FetchOutcome.okStudy study)).error = none ∧
    (∀ o, validRecords [enrich_trial id o] =
      if (enrich_trial id o).error.getD "" = "" then [enrich_trial id o] else []) := by
  refine ⟨fun o => ?_, rfl, rfl, rfl, fun o => ?_⟩
  · cases o <;> rfl
  · simp [validRecords, List.filter_singleton]

/-- A non-matching full-text record leaves the publication unchanged. -/
theorem upgradeStep_no_match (ft : FulltextRecord) (p : Publication)
    (h : ¬ ftMatches p.pmid ft) : upgradeStep ft p = p := by
  have h' : ¬ (ft.pmid = some p.pmid ∧ ft.nct_mentioned = true) := h
  simp only [upgradeStep, if_neg h']

/-- A matching full-text record forces tier "high" and score
`max prior 80`, keeping the pmid. -/
theorem upgradeStep_match (ft : FulltextRecord) (p : Publication)
    (h : ftMatches p.pmid ft) :
    upgradeStep ft p =
      { p with confidence_tier := "high"
               confidence_score := max p.confidence_score 80
               match_reason := p.match_reason ++ " (NCT ID confirmed in full text)" } := by
  have h' : ft.pmid = some p.pmid ∧ ft.nct_mentioned = true := h
  simp only [upgradeStep, if_pos h']

/-- The `upgradeStep` never changes the pmid. -/
theorem upgradeStep_pmid (ft : FulltextRecord) (p : Publication) :
    (upgradeStep ft p).pmid = p.pmid := by
  by_cases h : ft.pmid = some p.pmid ∧ ft.nct_mentioned = true
  · simp only [upgradeStep, if_pos h]
  · simp only [upgradeStep, if_neg h]

/-- The in-place upgrade loop never changes a publication's pmid. -/
theorem upgradePublication_pmid (l : List FulltextRecord) :
    ∀ p : Publication, (upgradePublication l p).pmid = p.pmid := by
  induction l with
  | nil => intro p; rfl
  | cons ft rest ih =>
    intro p
    show (upgradePublication rest (upgradeStep ft p)).pmid = p.pmid
    rw [ih, upgradeStep_pmid]

/-- If no full-text record matches the publication's pmid with a mention,
the upgrade loop is the identity. -/
theorem upgradePublication_no_match (l : List FulltextRecord) :
    ∀ p : Publication, (∀ ft ∈ l, ¬ ftMatches p.pmid ft) →
      upgradePublication l p = p := by
  induction l with
  | nil => intro p _; rfl
  | cons ft rest ih =>
    intro p h
    show upgradePublication rest (upgradeStep ft p) = p
    rw [upgradeStep_no_match ft p (h ft (List.mem_cons_self ft rest))]
    exact ih p (fun ft' hm => h ft' (List.mem_cons_of_mem ft hm))

/-- If some full-text record matches the publication's pmid with a mention,
the upgrade loop forces the tier to "high" and the score to the maximum of
the prior score and 80. -/
theorem upgradePublication_match (l : List FulltextRecord) :
    ∀ p : Publication, (∃ ft ∈ l, ftMatches p.pmid ft) →
      (upgradePublication l p).confidence_tier = "high" ∧
      (upgradePublication l p).confidence_score = max p.confidence_score 80 := by
  induction l with
  | nil =>
    intro p h
    rcases h with ⟨ft, hm, _⟩
    cases hm
  | cons ft rest ih =>
    intro p h
    show ((upgradePublication rest (upgradeStep ft p)).confidence_tier = "high") ∧
      ((upgradePublication rest (upgradeStep ft p)).confidence_score =
        max p.confidence_score 80)
    by_cases hft : ftMatches p.pmid ft
    · have hq_tier : (upgradeStep ft p).confidence_tier = "high" := by
        rw [upgradeStep_match ft p hft]
      have hq_score : (upgradeStep ft p).confidence_score = max p.confidence_score 80 := by
        rw [upgradeStep_match ft p hft]
      have hq_pmid : (upgradeStep ft p).pmid = p.pmid := upgradeStep_pmid ft p
      by_cases hrest : ∃ ft' ∈ rest, ftMatches p.pmid ft'
      · have hrest' : ∃ ft' ∈ rest, ftMatches (upgradeStep ft p).pmid ft' := by
          rw [hq_pmid]; exact hrest
        obtain ⟨ht, hs⟩ := ih (upgradeStep ft p) hrest'
        refine ⟨ht, ?_⟩
        rw [hs, hq_score, max_assoc, max_self]
      · have hrest' : ∀ ft' ∈ rest, ¬ ftMatches (upgradeStep ft p).pmid ft' := by
          rw [hq_pmid]; push_neg at hrest; exact hrest
        rw [upgradePublication_no_match rest _ hrest']
        exact ⟨hq_tier, hq_score⟩
    · rcases h with ⟨ft', hmem, hm⟩
      rcases List.mem_cons.mp hmem with heq | hmem'
      · exact absurd (heq ▸ hm) hft
      · rw [upgradeStep_no_match ft p hft]
        exact ih p ⟨ft', hmem', hm⟩

/-- C4: in the validator's deterministic fallback, the emitted publications
are exactly the top 3 candidates (index-aligned), each tiered by the numeric
score thresholds (≥70 high, 50-69 medium, <50 low) when no full-text record
flags its trial mention, and forced to tier "high" with score
`max prior 80 ≥ 80` whenever a full-text record for the same pmid flags the
trial id as mentioned, regardless of the prior score. -/
theorem C4_fallback_tiering (rec : TrialRecord) :
    (fallbackTrialLink rec).publications.length = min 3 rec.pubmed_candidates.length ∧
    ∀ i (hc : i < rec.pubmed_candidates.length)
      (hi : i < (fallbackTrialLink rec).publications.length),
      (((fallbackTrialLink rec).publications.get ⟨i, hi⟩).pmid =
        (rec.pubmed_candidates.get ⟨i, hc⟩).pmid.getD "") ∧
      ((∃ ft ∈ rec.fulltext_data,
          ftMatches ((rec.pubmed_candidates.get ⟨i, hc⟩).pmid.getD "") ft) →
        ((fallbackTrialLink rec).publications.get ⟨i, hi⟩).confidence_tier = "high" ∧
        ((fallbackTrialLink rec).publications.get ⟨i, hi⟩).confidence_score =
          max ((rec.pubmed_candidates.get ⟨i, hc⟩).confidence.getD 30) 80 ∧
        80 ≤ ((fallbackTrialLink rec).publications.get ⟨i, hi⟩).confidence_score) ∧
      ((∀ ft ∈ rec.fulltext_data,
          ¬ ftMatches ((rec.pubmed_candidates.get ⟨i, hc⟩).pmid.getD "") ft) →
        ((fallbackTrialLink rec).publications.get ⟨i, hi⟩).confidence_tier =
          tierSpec ((rec.pubmed_candidates.get ⟨i, hc⟩).confidence.getD 30) ∧
        ((fallbackTrialLink rec).publications.get ⟨i, hi⟩).confidence_score =
          (rec.pubmed_candidates.get ⟨i, hc⟩).confidence.getD 30) := by
  constructor
  · simp [fallbackTrialLink]
  · intro i hc hi
    have hpi : (fallbackTrialLink rec).publications.get ⟨i, hi⟩ =
        upgradePublication rec.fulltext_data
          (buildPublication (rec.pubmed_candidates.get ⟨i, hc⟩)) := by
      simp [fallbackTrialLink, List.get_eq_getElem, List.getElem_map, List.getElem_take]
    set c := rec.pubmed_candidates.get ⟨i, hc⟩ with hcdef
    have hbp : (buildPublication c).pmid = c.pmid.getD "" := rfl
    have hbs : (buildPublication c).confidence_score = c.confidence.getD 30 := rfl
    have hbt : (buildPublication c).confidence_tier = tierSpec (c.confidence.getD 30) := rfl
    refine ⟨?_, ?_, ?_⟩
    · rw [hpi, upgradePublication_pmid, hbp]
    · intro hmatch
      have hm' : ∃ ft ∈ rec.fulltext_data, ftMatches (buildPublication c).pmid ft := by
        rw [hbp]; exact hmatch
      obtain ⟨ht, hs⟩ := upgradePublication_match rec.fulltext_data _ hm'
      refine ⟨hpi ▸ ht, ?_, ?_⟩
      · rw [hpi, hs, hbs]
      · rw [hpi, hs]
        exact le_max_right _ _
    · intro hnone
      have hn' : ∀ ft ∈ rec.fulltext_data, ¬ ftMatches (buildPublication c).pmid ft := by
        rw [hbp]; exact hnone
      have heqp := upgradePublication_no_match rec.fulltext_data _ hn'
      rw [hpi, heqp]
      exact ⟨hbt, hbs⟩

theorem C4_fallback_tiering_witness :
    ((fallbackTrialLink c4rec).publications.get ⟨0, by decide⟩).confidence_tier = "high" ∧
    ((fallbackTrialLink c4rec).publications.get ⟨0, by decide⟩).confidence_score = max 20 80 := by
  have h := (C4_fallback_tiering c4rec).2 0 (by decide) (by decide)
  have hm := h.2.1 ⟨c4ft, by decide, by decide⟩
  exact ⟨hm.1, hm.2.1⟩

/-- C7 counterexample: for an enriched trial whose two search phases both
return zero citations, no gateway ranking call is made at all (the function
returns the empty list early), so "hands the merged results of both phases
to the reasoning gateway" fails as a universal statement. -/
theorem C7_counterexample :
    (link_trial_to_publications c7searchNctEmpty c7searchMetaEmpty
      RankOutcome.failure c7registry).heuristicRan = true ∧
    (link_trial_to_publications c7searchNctEmpty c7searchMetaEmpty
      RankOutcome.failure c7registry).gatewayCombined = none ∧
    (link_trial_to_publications c7searchNctEmpty c7searchMetaEmpty
      RankOutcome.failure c7registry).result = [] := by
  refine ⟨?_, ?_, ?_⟩ <;> decide

/-- C7 (amended): for every enriched trial with a non-empty NCT id,
publication search runs the high-precision structured NCT search first
(the recorded first-phase results are exactly its output), escalates to the
heuristic metadata search iff the precision search returned fewer than 3
hits, and, whenever the two phases together produced at least one citation,
hands the merged rendering of both phases' results to the reasoning gateway
for ranking; when both phases return zero citations it returns the empty
list without any gateway call. -/
theorem C7_two_phase (searchByNct : String → String × List RawCitation)
    (searchByMetadata : String → String → String → String → String × List RawCitation)
    (rank : RankOutcome) (registry : Registry)
    (hid : registry.nct_id.getD "" ≠ "")
    (run : LinkRun)
    (hrun : run = link_trial_to_publications searchByNct searchByMetadata rank registry) :
    run.nct_md = (searchByNct (registry.nct_id.getD "")).1 ∧
    run.nct_citations = (searchByNct (registry.nct_id.getD "")).2 ∧
    (run.heuristicRan = true ↔ (searchByNct (registry.nct_id.getD "")).2.length < 3) ∧
    (run.heuristicRan = false → run.heuristic_md = "" ∧ run.heuristic_citations = []) ∧
    (run.nct_citations ++ run.heuristic_citations = [] →
      run.gatewayCombined = none ∧ run.result = []) ∧
    (run.nct_citations ++ run.heuristic_citations ≠ [] →
      run.gatewayCombined = some ("## Structured NCT Search Results\n" ++ run.nct_md ++
        "\n\n" ++
        (if run.heuristic_md ≠ "" then
          "## Heuristic Metadata Search Results\n" ++ run.heuristic_md ++ "\n"
        else ""))) := by
  subst hrun
  simp only [link_trial_to_publications, if_neg hid]
  split_ifs with h3 hemp hemp <;>
    simp_all [List.isEmpty_iff]

theorem C7_two_phase_witness :
    (link_trial_to_publications c7searchNctOne c7searchMetaOne
      RankOutcome.failure c7registry).heuristicRan = true ∧
    (link_trial_to_publications c7searchNctOne c7searchMetaOne
      RankOutcome.failure c7registry).gatewayCombined ≠ none := by
  obtain ⟨-, -, hiff, -, -, hne⟩ := C7_two_phase c7searchNctOne c7searchMetaOne
    RankOutcome.failure c7registry (by decide) _ rfl
  refine ⟨hiff.mpr (by decide), ?_⟩
  rw [hne (by decide)]
  exact Option.some_ne_none _

/-- C8: when the gateway ranking call fails, the fallback result is
non-empty exactly when the raw searches returned at least one citation, and
every fallback candidate is tagged `match_type = "metadata_heuristic"`. -/
theorem C8_rank_failure (searchByNct : String → String × List RawCitation)
    (searchByMetadata : String → String → String → String → String × List RawCitation)
    (registry : Registry)
    (hid : registry.nct_id.getD "" ≠ "")
    (run : LinkRun)
    (hrun : run = link_trial_to_publications searchByNct searchByMetadata
      RankOutcome.failure registry) :
    (run.result ≠ [] ↔ run.nct_citations ++ run.heuristic_citations ≠ []) ∧
    (∀ c ∈ run.result, c.match_type = some "metadata_heuristic") := by
  subst hrun
  simp only [link_trial_to_publications, if_neg hid]
  split_ifs with h3 hemp hemp <;> refine ⟨?_, ?_⟩
  all_goals try simp_all [List.isEmpty_iff]
  all_goals
    intro c hc
    have hc' := List.take_subset _ _ hc
    simp only [List.mem_append, List.mem_map] at hc'
    first
      | (rcases hc' with ⟨x, -, rfl⟩ | ⟨x, -, rfl⟩
         all_goals rfl)
      | (rcases hc' with ⟨x, -, rfl⟩
         rfl)

theorem C8_rank_failure_witness :
    (link_trial_to_publications c7searchNctOne c7searchMetaOne
      RankOutcome.failure c7registry).result ≠ [] ∧
    ((link_trial_to_publications c7searchNctOne c7searchMetaOne
      RankOutcome.failure c7registry).result.all
        (fun c => c.match_type == some "metadata_heuristic")) = true := by
  obtain ⟨hiff, -⟩ := C8_rank_failure c7searchNctOne c7searchMetaOne
    c7registry (by decide) _ rfl
  exact ⟨hiff.mpr (by decide), by decide⟩

/-- C6 counterexample: on the zero-trials path the orchestrator emits NO
event of kind "result" at all; the "No clinical trials found" message is
carried by an event of kind "agent" (the step-message kind), so the claim's
"single result event" is the wrong event kind. -/
theorem C6_counterexample :
    ((run_linking_pipeline c6cb "KRAS G12C" none 10).events.filter
      (fun e => e.event = "result")).length = 0 ∧
    ((run_linking_pipeline c6cb "KRAS G12C" none 10).events.filter
      (fun e => containsSub e.content "No clinical trials found")).map
        (fun e => e.event) = ["agent"] := by
  refine ⟨?_, ?_⟩ <;> decide

/-- C6 (amended): for every target for which the registry search returns
zero trials, the orchestrator's whole run is exactly three events — the
search status event, then a single agent-kind event whose message contains
"No clinical trials found", then done — and the Enrichment stage is never
invoked (no NCT id is handed to the Registry Enricher). -/
theorem C6_no_trials (cb : LinkingCollab) (target : String) (max_trials : Nat)
    (s : String) (h : cb.fetch_trials target max_trials = Except.ok (s, [])) :
    run_linking_pipeline cb target none max_trials =
      { events := [Event.status "Linking Orchestrator"
          ("Searching ClinicalTrials.gov for '" ++ target ++ "'…"),
        Event.agentMsg "Linking Orchestrator"
          ("No clinical trials found for '" ++ target ++ "'."),
        Event.done], enrich_calls := [] } ∧
    ∃ suffix, ("No clinical trials found for '" ++ target ++ "'.") =
      "No clinical trials found" ++ suffix := by
  constructor
  · simp only [run_linking_pipeline]
    rw [h]
    rfl
  · refine ⟨" for '" ++ target ++ "'.", ?_⟩
    rw [← strAppendAssoc, ← strAppendAssoc,
      show ("No clinical trials found" ++ " for '" : String) =
        "No clinical trials found for '" from by decide]

theorem C6_no_trials_witness :
    run_linking_pipeline c6cb "KRAS G12C" none 10 =
      { events := [Event.status "Linking Orchestrator"
          ("Searching ClinicalTrials.gov for '" ++ "KRAS G12C" ++ "'…"),
        Event.agentMsg "Linking Orchestrator"
          ("No clinical trials found for '" ++ "KRAS G12C" ++ "'."),
        Event.done], enrich_calls := [] } :=
  (C6_no_trials c6cb "KRAS G12C" 10 "" rfl).1

theorem litBlockHdr : ("\n\n### Round " : String) = "\n\n### " ++ "Round " := by decide

theorem litAdvBlock : (" — Advocate\n" : String) = " — " ++ "Advocate" ++ "\n" := by decide

theorem litSkepBlock : (" — Skeptic\n" : String) = " — " ++ "Skeptic" ++ "\n" := by decide

theorem litMedBlock : (" — Mediator\n" : String) = " — " ++ "Mediator" ++ "\n" := by decide

theorem litAdvLog : ("Advocate (R" : String) = "Advocate" ++ " (R" := by decide

theorem litSkepLog : ("Skeptic (R" : String) = "Skeptic" ++ " (R" := by decide

theorem litMedLog : ("Mediator (R" : String) = "Mediator" ++ " (R" := by decide

/-- One debate-loop iteration appends exactly the three labeled blocks of
round `r` in Advocate → Skeptic → Mediator order to the transcript and the
three matching entries to the log. -/
theorem debateOneRound_shape (llm : String → String → String) (prompts : String → String)
    (hypotheses : String) (maxR r : Nat) (history : String) (log : List AgentLog) :
    (debateOneRound llm prompts hypotheses maxR r history log).1 =
      history ++ debateBlockSpec maxR r "Advocate" (debAdvResp llm prompts hypotheses maxR r history) ++
        debateBlockSpec maxR r "Skeptic" (debSkepResp llm prompts hypotheses maxR r history) ++
        debateBlockSpec maxR r "Mediator" (debMedResp llm prompts hypotheses maxR r history) ∧
    (debateOneRound llm prompts hypotheses maxR r history log).2 =
      log ++ [debateLogSpec r "Advocate" (debAdvResp llm prompts hypotheses maxR r history),
        debateLogSpec r "Skeptic" (debSkepResp llm prompts hypotheses maxR r history),
        debateLogSpec r "Mediator" (debMedResp llm prompts hypotheses maxR r history)] := by
  constructor
  · simp only [debateOneRound, debateBlockSpec, debAdvResp, debSkepResp, debMedResp,
      debHist1, debHist2, litBlockHdr, litAdvBlock, litSkepBlock, litMedBlock,
      strAppendAssoc]
  · simp only [debateOneRound, debateLogSpec, debAdvResp, debSkepResp, debMedResp,
      debHist1, debHist2, litBlockHdr, litAdvBlock, litSkepBlock, litMedBlock,
      litAdvLog, litSkepLog, litMedLog, strAppendAssoc,
      List.append_assoc, List.cons_append, List.nil_append]

theorem strConcat_append (l₁ l₂ : List String) :
    strConcat (l₁ ++ l₂) = strConcat l₁ ++ strConcat l₂ := by
  induction l₁ with
  | nil => simp only [List.nil_append, strConcat, List.foldr_nil, String.empty_append]
  | cons a t ih =>
    simp only [List.cons_append, strConcat, List.foldr_cons] at *
    rw [ih, strAppendAssoc]

/-- The debate loop from round `r` with `fuel` remaining rounds appends, for
some per-round contents `c`, exactly the blocks of rounds `r, r+1, ...,
r+fuel-1` in strict rotation to the transcript, and one log entry per
block. -/
theorem debateLoop_shape (llm : String → String → String) (prompts : String → String)
    (hypotheses : String) (maxR : Nat) :
    ∀ (fuel r : Nat) (history : String) (log : List AgentLog),
    ∃ c : Nat → Nat → String,
      (debateLoop llm prompts hypotheses maxR fuel r history log).1 =
        history ++ strConcat ((List.range' r fuel).flatMap
          (fun k => debateRoundBlocksSpec maxR k c)) ∧
      (debateLoop llm prompts hypotheses maxR fuel r history log).2 =
        log ++ (List.range' r fuel).flatMap (fun k => debateRoundLogSpec k c) := by
  intro fuel
  induction fuel with
  | zero =>
    intro r history log
    refine ⟨fun _ _ => "", ?_, ?_⟩
    · show history = history ++ strConcat ((List.range' r 0).flatMap _)
      rw [show List.range' r 0 = [] from rfl]
      rw [show ([] : List Nat).flatMap (fun k => debateRoundBlocksSpec maxR k (fun _ _ => "")) = [] from rfl]
      rw [show strConcat [] = "" from rfl, strAppendEmpty]
    · show log = log ++ (List.range' r 0).flatMap _
      rw [show List.range' r 0 = [] from rfl]
      rw [show ([] : List Nat).flatMap (fun k => debateRoundLogSpec k (fun _ _ => "")) = [] from rfl]
      rw [List.append_nil]
  | succ fuel ih =>
    intro r history log
    obtain ⟨hh, hl⟩ := debateOneRound_shape llm prompts hypotheses maxR r history log
    obtain ⟨c', h1, h2⟩ := ih (r + 1)
      (debateOneRound llm prompts hypotheses maxR r history log).1
      (debateOneRound llm prompts hypotheses maxR r history log).2
    refine ⟨fun k i =>
      if k = r then
        (if i = 0 then debAdvResp llm prompts hypotheses maxR r history
         else if i = 1 then debSkepResp llm prompts hypotheses maxR r history
         else debMedResp llm prompts hypotheses maxR r history)
      else c' k i, ?_, ?_⟩
    · have hstep : (debateLoop llm prompts hypotheses maxR (fuel + 1) r history log) =
          debateLoop llm prompts hypotheses maxR fuel (r + 1)
            (debateOneRound llm prompts hypotheses maxR r history log).1
            (debateOneRound llm prompts hypotheses maxR r history log).2 := rfl
      rw [hstep, h1, hh]
      rw [List.range'_succ, List.flatMap_cons, strConcat_append]
      have hhead : debateRoundBlocksSpec maxR r (fun k i =>
          if k = r then
            (if i = 0 then debAdvResp llm prompts hypotheses maxR r history
             else if i = 1 then debSkepResp llm prompts hypotheses maxR r history
             else debMedResp llm prompts hypotheses maxR r history)
          else c' k i) =
          [debateBlockSpec maxR r "Advocate" (debAdvResp llm prompts hypotheses maxR r history),
           debateBlockSpec maxR r "Skeptic" (debSkepResp llm prompts hypotheses maxR r history),
           debateBlockSpec maxR r "Mediator" (debMedResp llm prompts hypotheses maxR r history)] := by
        simp [debateRoundBlocksSpec]
      have htail : (List.range' (r + 1) fuel).flatMap (fun k => debateRoundBlocksSpec maxR k
          (fun k i =>
            if k = r then
              (if i = 0 then debAdvResp llm prompts hypotheses maxR r history
               else if i = 1 then debSkepResp llm prompts hypotheses maxR r history
               else debMedResp llm prompts hypotheses maxR r history)
            else c' k i)) =
          (List.range' (r + 1) fuel).flatMap (fun k => debateRoundBlocksSpec maxR k c') := by
        rw [List.flatMap_def, List.flatMap_def]
        refine congrArg List.flatten (List.map_congr_left ?_)
        intro k hk
        have hkr : k ≠ r := by
          have := (List.mem_range'_1.mp hk).1
          omega
        simp [debateRoundBlocksSpec, hkr]
      rw [hhead, htail]
      rw [show strConcat [debateBlockSpec maxR r "Advocate" (debAdvResp llm prompts hypotheses maxR r history),
           debateBlockSpec maxR r "Skeptic" (debSkepResp llm prompts hypotheses maxR r history),
           debateBlockSpec maxR r "Mediator" (debMedResp llm prompts hypotheses maxR r history)] =
          debateBlockSpec maxR r "Advocate" (debAdvResp llm prompts hypotheses maxR r history) ++
          (debateBlockSpec maxR r "Skeptic" (debSkepResp llm prompts hypotheses maxR r history) ++
          (debateBlockSpec maxR r "Mediator" (debMedResp llm prompts hypotheses maxR r history) ++ "")) from rfl]
      rw [strAppendEmpty]
      simp only [strAppendAssoc]
    · have hstep : (debateLoop llm prompts hypotheses maxR (fuel + 1) r history log) =
          debateLoop llm prompts hypotheses maxR fuel (r + 1)
            (debateOneRound llm prompts hypotheses maxR r history log).1
            (debateOneRound llm prompts hypotheses maxR r history log).2 := rfl
      rw [hstep, h2, hl]
      rw [List.range'_succ, List.flatMap_cons]
      have hhead : debateRoundLogSpec r (fun k i =>
          if k = r then
            (if i = 0 then debAdvResp llm prompts hypotheses maxR r history
             else if i = 1 then debSkepResp llm prompts hypotheses maxR r history
             else debMedResp llm prompts hypotheses maxR r history)
          else c' k i) =
          [debateLogSpec r "Advocate" (debAdvResp llm prompts hypotheses maxR r history),
           debateLogSpec r "Skeptic" (debSkepResp llm prompts hypotheses maxR r history),
           debateLogSpec r "Mediator" (debMedResp llm prompts hypotheses maxR r history)] := by
        simp [debateRoundLogSpec]
      have htail : (List.range' (r + 1) fuel).flatMap (fun k => debateRoundLogSpec k
          (fun k i =>
            if k = r then
              (if i = 0 then debAdvResp llm prompts hypotheses maxR r history
               else if i = 1 then debSkepResp llm prompts hypotheses maxR r history
               else debMedResp llm prompts hypotheses maxR r history)
            else c' k i)) =
          (List.range' (r + 1) fuel).flatMap (fun k => debateRoundLogSpec k c') := by
        rw [List.flatMap_def, List.flatMap_def]
        refine congrArg List.flatten (List.map_congr_left ?_)
        intro k hk
        have hkr : k ≠ r := by
          have := (List.mem_range'_1.mp hk).1
          omega
        simp [debateRoundLogSpec, hkr]
      rw [hhead, htail]
      simp only [List.append_assoc, List.cons_append, List.nil_append]

theorem debateLog_length (c : Nat → Nat → String) (R : Nat) :
    ((List.range R).flatMap (fun k => debateRoundLogSpec k c)).length = 3 * R := by
  induction R with
  | zero => rfl
  | succ R ih =>
    rw [List.range_succ, List.flatMap_append, List.length_append, ih]
    rw [show ([R].flatMap (fun k => debateRoundLogSpec k c)).length = 3 from rfl]
    omega

/-- C3: a debate run starting at round 0 with an empty transcript and
`maxRounds = R` returns a transcript that is exactly the concatenation of
`3R` labeled blocks ("Round k/N — Role") in strict
Advocate → Skeptic → Mediator repeating order over rounds 1..R, produces
exactly one `agents_log` entry per block in the same order, and returns a
debate state with `round = R` (and `max_rounds = R`). -/
theorem C3_debate_rounds (llm : String → String → String) (prompts : String → String)
    (hypotheses : String) (R : Nat) :
    (debateCall llm prompts ⟨0, R, ""⟩ hypotheses).1.round = R ∧
    (debateCall llm prompts ⟨0, R, ""⟩ hypotheses).1.max_rounds = R ∧
    (debateCall llm prompts ⟨0, R, ""⟩ hypotheses).2.length = 3 * R ∧
    ∃ c : Nat → Nat → String,
      (debateCall llm prompts ⟨0, R, ""⟩ hypotheses).1.history =
        strConcat ((List.range R).flatMap (fun k => debateRoundBlocksSpec R k c)) ∧
      (debateCall llm prompts ⟨0, R, ""⟩ hypotheses).2 =
        (List.range R).flatMap (fun k => debateRoundLogSpec k c) := by
  obtain ⟨c, hh, hl⟩ := debateLoop_shape llm prompts hypotheses R R 0 "" []
  have hcall1 : (debateCall llm prompts ⟨0, R, ""⟩ hypotheses).1.history =
      (debateLoop llm prompts hypotheses R R 0 "" []).1 := rfl
  have hcall2 : (debateCall llm prompts ⟨0, R, ""⟩ hypotheses).2 =
      (debateLoop llm prompts hypotheses R R 0 "" []).2 := rfl
  refine ⟨rfl, rfl, ?_, c, ?_, ?_⟩
  · rw [hcall2, hl, List.nil_append, ← List.range_eq_range', debateLog_length]
  · rw [hcall1, hh, String.empty_append, List.range_eq_range']
  · rw [hcall2, hl, List.nil_append, List.range_eq_range']

/-- C1: the claim requires the state after N steps to retain every prior
step's `agents_log` and `citations` entries in completion order.  The code
violates this for `agents_log`: `BiotechState` declares no reducer, so each
node's update REPLACES the channel, and each node returns only its own new
entries.  Running the first two pipeline steps concretely: after the
analyzer the log holds the Target Analyzer entry, but after the trials
scout completes, the state's log holds ONLY the Trials Scout entry — the
earlier entry is lost (while `citations` survive only because the scout
node itself concatenates `state.citations ++ new`). -/
theorem C1_agents_log_overwritten :
    ((applyUpdate (build_initial_state "KRAS G12C" 1 "")
      (target_analyzer_node c1collab (build_initial_state "KRAS G12C" 1 ""))).agents_log.map
        (fun e => e.agent) = ["Target Analyzer"]) ∧
    ((runSteps (build_initial_state "KRAS G12C" 1 "")
      ((pipelineNodes c1collab).take 2)).agents_log.map
        (fun e => e.agent) = ["Trials Scout"]) ∧
    ((runSteps (build_initial_state "KRAS G12C" 1 "")
      ((pipelineNodes c1collab).take 2)).citations = [ct1cit]) ∧
    ¬ ((runSteps (build_initial_state "KRAS G12C" 1 "")
      ((pipelineNodes c1collab).take 2)).agents_log.map
        (fun e => e.agent) = ["Target Analyzer", "Trials Scout"]) := by
  refine ⟨?_, ?_, ?_, ?_⟩ <;> decide
